import Mathlib

/-!
Verification of the multi-source property resolution mechanism of the
`chemicals` library (modules `chemicals.dipole` and `chemicals.safety`).

Chemical identifiers, field names and source names are opaque strings.
Numeric table cells are modelled as rationals; a cell is `Option` so that a
null entry and a present value are distinguished, and a missing row or a
missing field both resolve to `none` ("absent").

The helper functions of `chemicals.data_reader` (the Table Store and the
three resolver primitives) are not part of the given sources; they are
modelled from the specification, section 4.  The wrapper functions
(`dipole_moment`, `TWA`, `T_flash`, `LFL`, ...) are translated directly from
`chemicals/dipole.py` and `chemicals/safety.py`, including their Python
truthiness tests (`if not method`, `if value`).
-/

/-- A row of a property table: field name to cell, a cell being possibly null. -/
abbrev Row := List (String × Option ℚ)

/-- Modelled from the spec (section 3, PropertyTable): an ordered mapping from
chemical identifier to a row of named fields; the on-disk tables backing
`chemicals.data_reader` are not in the given sources. -/
abbrev PropertyTable := List (String × Row)

/-- Modelled from the spec (section 3, SourceRegistry): ordered mapping from
source name to backing table; order encodes priority. -/
abbrev Registry := List (String × PropertyTable)

/-- Modelled from the spec (section 4.1, Table Store `get_row`): exact-key
point lookup of a row. -/
def get_row (t : PropertyTable) (i : String) : Option Row :=
  (t.find? (fun r => r.1 == i)).map Prod.snd

/-- Modelled from the spec (section 4.1): field lookup inside a row; a missing
field and a null field are both absent. -/
def get_field_row (r : Row) (f : String) : Option ℚ :=
  ((r.find? (fun c => c.1 == f)).map Prod.snd).join

/-- Modelled from the spec (section 4.1, Table Store `get_field`): composes
row lookup and field lookup; any missing identifier or missing or null field
yields absent. -/
def get_field (t : PropertyTable) (i f : String) : Option ℚ :=
  match get_row t i with
  | some r => get_field_row r f
  | none => none

/-- Error payload of the ValueError raised on an invalid method name: the
offending name and the list that the message enumerates. -/
structure InvalidMethod where
  badMethod : String
  allowed : List String
deriving DecidableEq

/-- Result of a Python call that either returns normally or raises. -/
inductive PyResult (α : Type) where
  | ok (a : α)
  | raised (e : InvalidMethod)
deriving DecidableEq

/-- Modelled from the spec (section 4.2, operation 1,
`chemicals.data_reader.list_available_methods_from_df_dict`, absent from the
given sources): names of the sources, in priority order, whose table has a
non-null value of the field for the identifier. -/
def list_available_methods_from_df_dict (d : Registry) (i f : String) : List String :=
  (d.filter (fun s => (get_field s.2 i f).isSome)).map Prod.fst

/-- Modelled from the spec (section 4.2, operation 2,
`chemicals.data_reader.retrieve_any_from_df_dict`, absent from the given
sources): walk the registry in priority order, return the value from the
first source that has non-null data, short-circuiting; absent if none has. -/
def retrieve_any_from_df_dict (d : Registry) (i f : String) : Option ℚ :=
  match d with
  | [] => none
  | s :: rest =>
    match get_field s.2 i f with
    | some v => some v
    | none => retrieve_any_from_df_dict rest i f

/-- Modelled from the spec (section 4.2, operation 3,
`chemicals.data_reader.retrieve_from_df_dict`, absent from the given
sources): direct lookup in the named source; raises InvalidMethod, with the
message enumerating the registry keys, when the name is not registered;
absent when that one source lacks data. -/
def retrieve_from_df_dict (d : Registry) (i f m : String) : PyResult (Option ℚ) :=
  match d.find? (fun s => s.1 == m) with
  | some s => .ok (get_field s.2 i f)
  | none => .raised ⟨m, d.map Prod.fst⟩

/-- Python truthiness of an optional string argument: None and the empty
string are falsy. -/
def pyTruthyStr : Option String → Bool
  | none => false
  | some s => !s.isEmpty

/-- Python truthiness of an optional float: None and 0.0 are falsy. -/
def pyTruthyOpt : Option ℚ → Bool
  | none => false
  | some q => if q = 0 then false else true

/-- Python truthiness of an optional atom-count dictionary: None and the
empty dictionary are falsy. -/
def pyTruthyAtoms : Option (List (String × ℕ)) → Bool
  | none => false
  | some l => !l.isEmpty

/-- Source name constant CCCBDB of chemicals.dipole. -/
def CCCBDB : String := "CCCBDB"

/-- Source name constant MULLER of chemicals.dipole. -/
def MULLER : String := "MULLER"

/-- Source name constant POLING of chemicals.dipole. -/
def POLING : String := "POLING"

/-- The list `dipole_methods` of chemicals.dipole. -/
def dipole_methods : List String := [CCCBDB, MULLER, POLING]

/-- Return type of `dipole_moment`: either a methods list (get_methods=True)
or a value. -/
inductive DipoleResult where
  | methods (ms : List String)
  | value (v : Option ℚ)
deriving DecidableEq

/-- The function `dipole_moment` of chemicals/dipole.py (lines 67-138),
parameterized by the loaded `dipole_sources` registry. -/
def dipole_moment (sources : Registry) (CASRN : String) (get_methods : Bool)
    (method : Option String) : PyResult DipoleResult :=
  if get_methods then
    .ok (.methods (list_available_methods_from_df_dict sources CASRN "Dipole"))
  else if pyTruthyStr method then
    match retrieve_from_df_dict sources CASRN "Dipole" (method.getD "") with
    | .ok v => .ok (.value v)
    | .raised e => .raised e
  else
    .ok (.value (retrieve_any_from_df_dict sources CASRN "Dipole"))

/-- Source name constant ONTARIO of chemicals.safety ("Ontario Limits"). -/
def ONTARIO_LIMITS : String := "Ontario Limits"

/-- The tuple `TWA_all_methods` of chemicals/safety.py (line 362). -/
def TWA_all_methods : List String := [ONTARIO_LIMITS]

/-- The tuple `STEL_all_methods` of chemicals/safety.py (line 365). -/
def STEL_all_methods : List String := [ONTARIO_LIMITS]

/-- The tuple `Ceiling_all_methods` of chemicals/safety.py (line 368). -/
def Ceiling_all_methods : List String := [ONTARIO_LIMITS]

/-- The tuple `Skin_all_methods` of chemicals/safety.py (line 371). -/
def Skin_all_methods : List String := [ONTARIO_LIMITS]

/-- One row of the Ontario exposure-limits dictionary: the six limit fields
(possibly null floats) and the skin flag, as stored in the JSON data file. -/
structure OntarioEntry where
  TWA_ppm : Option ℚ
  TWA_mgm3 : Option ℚ
  STEL_ppm : Option ℚ
  STEL_mgm3 : Option ℚ
  Ceiling_ppm : Option ℚ
  Ceiling_mgm3 : Option ℚ
  SkinFlag : Bool
deriving DecidableEq

/-- The Ontario exposure-limits dictionary, CAS number to entry, ordered as
the underlying JSON object. -/
abbrev OntDict := List (String × OntarioEntry)

/-- Point lookup in the Ontario dictionary (the Python `CASRN in dict` and
`dict[CASRN]` pair). -/
def ontLookup (ont : OntDict) (CASRN : String) : Option OntarioEntry :=
  (ont.find? (fun p => p.1 == CASRN)).map Prod.snd

/-- The function `TWA_methods` of chemicals/safety.py (lines 374-401),
parameterized by the loaded Ontario dictionary. -/
def TWA_methods (ont : OntDict) (CASRN : String) : List String :=
  match ontLookup ont CASRN with
  | some data =>
    if pyTruthyOpt data.TWA_ppm || pyTruthyOpt data.TWA_mgm3 then [ONTARIO_LIMITS] else []
  | none => []

/-- The function `TWA` of chemicals/safety.py (lines 403-424).  The final
implicit `return None` of the Python function is the `.ok none` fall-through;
the `raise ValueError` enumerates `TWA_all_methods`. -/
def TWA (ont : OntDict) (CASRN : String) (method : Option String) :
    PyResult (Option (ℚ × String)) :=
  if pyTruthyStr method = false ∨ method = some ONTARIO_LIMITS then
    match ontLookup ont CASRN with
    | some data =>
      if pyTruthyOpt data.TWA_ppm then .ok (some (data.TWA_ppm.getD 0, "ppm"))
      else if pyTruthyOpt data.TWA_mgm3 then .ok (some (data.TWA_mgm3.getD 0, "mg/m^3"))
      else .ok none
    | none => .ok none
  else
    .raised ⟨method.getD "", TWA_all_methods⟩

/-- The function `STEL_methods` of chemicals/safety.py (lines 426-447). -/
def STEL_methods (ont : OntDict) (CASRN : String) : List String :=
  match ontLookup ont CASRN with
  | some data =>
    if pyTruthyOpt data.STEL_ppm || pyTruthyOpt data.STEL_mgm3 then [ONTARIO_LIMITS] else []
  | none => []

/-- The function `STEL` of chemicals/safety.py (lines 449-472); note that its
error message enumerates `TWA_all_methods`, exactly as in the source. -/
def STEL (ont : OntDict) (CASRN : String) (method : Option String) :
    PyResult (Option (ℚ × String)) :=
  if pyTruthyStr method = false ∨ method = some ONTARIO_LIMITS then
    match ontLookup ont CASRN with
    | some data =>
      if pyTruthyOpt data.STEL_ppm then .ok (some (data.STEL_ppm.getD 0, "ppm"))
      else if pyTruthyOpt data.STEL_mgm3 then .ok (some (data.STEL_mgm3.getD 0, "mg/m^3"))
      else .ok none
    | none => .ok none
  else
    .raised ⟨method.getD "", TWA_all_methods⟩

/-- The function `Ceiling_methods` of chemicals/safety.py (lines 474-496). -/
def Ceiling_methods (ont : OntDict) (CASRN : String) : List String :=
  match ontLookup ont CASRN with
  | some data =>
    if pyTruthyOpt data.Ceiling_ppm || pyTruthyOpt data.Ceiling_mgm3 then [ONTARIO_LIMITS] else []
  | none => []

/-- The function `Ceiling` of chemicals/safety.py (lines 498-519); note that
its error message enumerates `list(Ontario_exposure_limits_dict)`, that is,
the identifier keys of the Ontario dictionary, exactly as in the source. -/
def Ceiling (ont : OntDict) (CASRN : String) (method : Option String) :
    PyResult (Option (ℚ × String)) :=
  if pyTruthyStr method = false ∨ method = some ONTARIO_LIMITS then
    match ontLookup ont CASRN with
    | some data =>
      if pyTruthyOpt data.Ceiling_ppm then .ok (some (data.Ceiling_ppm.getD 0, "ppm"))
      else if pyTruthyOpt data.Ceiling_mgm3 then .ok (some (data.Ceiling_mgm3.getD 0, "mg/m^3"))
      else .ok none
    | none => .ok none
  else
    .raised ⟨method.getD "", ont.map Prod.fst⟩

/-- The function `Skin_methods` of chemicals/safety.py (lines 521-540). -/
def Skin_methods (ont : OntDict) (CASRN : String) : List String :=
  if (ontLookup ont CASRN).isSome then [ONTARIO_LIMITS] else []

/-- The function `Skin` of chemicals/safety.py (lines 542-559). -/
def Skin (ont : OntDict) (CASRN : String) (method : Option String) :
    PyResult (Option Bool) :=
  if pyTruthyStr method = false ∨ method = some ONTARIO_LIMITS then
    match ontLookup ont CASRN with
    | some data => .ok (some data.SkinFlag)
    | none => .ok none
  else
    .raised ⟨method.getD "", TWA_all_methods⟩

/-- Method name constant IARC of chemicals/safety.py (line 563). -/
def IARC : String := "International Agency for Research on Cancer"

/-- Method name constant NTP of chemicals/safety.py (line 564). -/
def NTP : String := "National Toxicology Program 13th Report on Carcinogens"

/-- Constant UNLISTED of chemicals/safety.py (line 565). -/
def UNLISTED : String := "Unlisted"

/-- The tuple `Carcinogen_all_methods` of chemicals/safety.py (line 568). -/
def Carcinogen_all_methods : List String := [IARC, NTP]

/-- The function `Carcinogen_methods` of chemicals/safety.py (lines 571-589):
it returns the full constant list regardless of the identifier. -/
def Carcinogen_methods (_CASRN : String) : List String :=
  Carcinogen_all_methods

/-- A carcinogen-listing table (IARC or NTP data): CAS number to integer
status code. -/
abbrev CodeTable := List (String × ℕ)

/-- Point lookup in a carcinogen-listing table (the Python
`CASRN in data.index` and `data.at` pair). -/
def codeLookup (t : CodeTable) (CASRN : String) : Option ℕ :=
  (t.find? (fun p => p.1 == CASRN)).map Prod.snd

/-- The dictionary `IARC_codes` of chemicals/safety.py (lines 215-219) as a
total function; codes outside the dictionary do not occur in the data. -/
def IARC_codes (g : ℕ) : String :=
  if g = 1 then "Carcinogenic to humans (1)"
  else if g = 11 then "Probably carcinogenic to humans (2A)"
  else if g = 12 then "Possibly carcinogenic to humans (2B)"
  else if g = 3 then "Not classifiable as to its carcinogenicity to humans (3)"
  else if g = 4 then "Probably not carcinogenic to humans (4)"
  else ""

/-- The dictionary `NTP_codes` of chemicals/safety.py (line 214) as a total
function. -/
def NTP_codes (g : ℕ) : String :=
  if g = 1 then "Known"
  else if g = 2 then "Reasonably Anticipated"
  else ""

/-- Return type of `Carcinogen`: a per-source status dictionary when no
method is given, a single status string otherwise. -/
inductive CarcinogenResult where
  | full (iarcStatus ntpStatus : String)
  | single (s : String)
deriving DecidableEq

/-- The function `Carcinogen` of chemicals/safety.py (lines 591-657),
parameterized by the loaded IARC and NTP tables. -/
def Carcinogen (iarc ntp : CodeTable) (CASRN : String) (method : Option String) :
    PyResult CarcinogenResult :=
  if pyTruthyStr method = false then
    .ok (.full
      (match codeLookup iarc CASRN with | some g => IARC_codes g | none => UNLISTED)
      (match codeLookup ntp CASRN with | some g => NTP_codes g | none => UNLISTED))
  else if method = some IARC then
    match codeLookup iarc CASRN with
    | some g => .ok (.single (IARC_codes g))
    | none => .ok (.single UNLISTED)
  else if method = some NTP then
    match codeLookup ntp CASRN with
    | some g => .ok (.single (NTP_codes g))
    | none => .ok (.single UNLISTED)
  else
    .raised ⟨method.getD "", Carcinogen_all_methods⟩

/-- Source name constant IEC of chemicals/safety.py (line 230). -/
def IEC : String := "IEC 60079-20-1 (2010)"

/-- Source name constant NFPA of chemicals/safety.py (line 231). -/
def NFPA : String := "NFPA 497 (2008)"

/-- Source name constant SERAT of chemicals/safety.py (line 232). -/
def SERAT : String := "Serat DIPPR (2017)"

/-- Estimator name constant SUZUKI of chemicals/safety.py (line 234). -/
def SUZUKI : String := "Suzuki (1994)"

/-- Estimator name constant CROWLLOUVAR of chemicals/safety.py (line 235). -/
def CROWLLOUVAR : String := "Crowl and Louvar (2001)"

/-- The tuple `T_flash_all_methods` of chemicals/safety.py (line 663). -/
def T_flash_all_methods : List String := [IEC, NFPA, SERAT]

/-- The function `T_flash_methods` of chemicals/safety.py (lines 666-684),
parameterized by the loaded `Tflash_sources` registry. -/
def T_flash_methods (sources : Registry) (CASRN : String) : List String :=
  list_available_methods_from_df_dict sources CASRN "T_flash"

/-- The function `T_flash` of chemicals/safety.py (lines 686-747). -/
def T_flash (sources : Registry) (CASRN : String) (method : Option String) :
    PyResult (Option ℚ) :=
  if pyTruthyStr method then
    retrieve_from_df_dict sources CASRN "T_flash" (method.getD "")
  else
    .ok (retrieve_any_from_df_dict sources CASRN "T_flash")

/-- The tuple `T_autoignition_all_methods` of chemicals/safety.py (line 750). -/
def T_autoignition_all_methods : List String := [IEC, NFPA]

/-- The function `T_autoignition_methods` of chemicals/safety.py
(lines 753-772). -/
def T_autoignition_methods (sources : Registry) (CASRN : String) : List String :=
  list_available_methods_from_df_dict sources CASRN "T_autoignition"

/-- The function `T_autoignition` of chemicals/safety.py (lines 774-825). -/
def T_autoignition (sources : Registry) (CASRN : String) (method : Option String) :
    PyResult (Option ℚ) :=
  if pyTruthyStr method then
    retrieve_from_df_dict sources CASRN "T_autoignition" (method.getD "")
  else
    .ok (retrieve_any_from_df_dict sources CASRN "T_autoignition")

/-- The function `Suzuki_LFL` of chemicals/safety.py (lines 1065-1112): pure
correlation from the heat of combustion. -/
def Suzuki_LFL (Hc : ℚ) : ℚ :=
  let h := Hc / 1000000
  ((-342 / 100) / h + (569 / 1000) * h + (538 / 10000) * h * h + 180 / 100) / 100

/-- The function `Suzuki_UFL` of chemicals/safety.py (lines 1115-1162). -/
def Suzuki_UFL (Hc : ℚ) : ℚ :=
  let h := Hc / 1000000
  ((63 / 10) * h + (567 / 1000) * h * h + 235 / 10) / 100

/-- Atom-count lookup in an atoms dictionary. -/
def atomCount (atoms : List (String × ℕ)) (a : String) : Option ℕ :=
  (atoms.find? (fun p => p.1 == a)).map Prod.snd

/-- The function `Crowl_Louvar_LFL` of chemicals/safety.py (lines 1165-1213):
returns None unless carbon is present with a truthy (nonzero) count. -/
def Crowl_Louvar_LFL (atoms : List (String × ℕ)) : Option ℚ :=
  match atomCount atoms "C" with
  | some nC =>
    if nC = 0 then none
    else
      let nH : ℚ := ((atomCount atoms "H").getD 0 : ℕ)
      let nO : ℚ := ((atomCount atoms "O").getD 0 : ℕ)
      some ((55 / 100) / ((476 / 100) * (nC : ℚ) + (119 / 100) * nH - (238 / 100) * nO + 1))
  | none => none

/-- The function `Crowl_Louvar_UFL` of chemicals/safety.py (lines 1216-1264). -/
def Crowl_Louvar_UFL (atoms : List (String × ℕ)) : Option ℚ :=
  match atomCount atoms "C" with
  | some nC =>
    if nC = 0 then none
    else
      let nH : ℚ := ((atomCount atoms "H").getD 0 : ℕ)
      let nO : ℚ := ((atomCount atoms "O").getD 0 : ℕ)
      some ((35 / 10) / ((476 / 100) * (nC : ℚ) + (119 / 100) * nH - (238 / 100) * nO + 1))
  | none => none

/-- The tuple `LFL_all_methods` of chemicals/safety.py (line 829). -/
def LFL_all_methods : List String := [IEC, NFPA, SUZUKI, CROWLLOUVAR]

/-- The function `LFL_methods` of chemicals/safety.py (lines 832-866): the
tabulated methods, then SUZUKI appended when Hc is not None, then
CROWLLOUVAR appended when atoms is not None. -/
def LFL_methods (sources : Registry) (Hc : Option ℚ)
    (atoms : Option (List (String × ℕ))) (CASRN : String) : List String :=
  let methods := list_available_methods_from_df_dict sources CASRN "LFL"
  let methods := if Hc.isSome then methods ++ [SUZUKI] else methods
  let methods := if atoms.isSome then methods ++ [CROWLLOUVAR] else methods
  methods

/-- The function `LFL` of chemicals/safety.py (lines 868-931).  The default
branch tests the retrieved value and the Hc and atoms arguments by Python
truthiness; the SUZUKI and CROWLLOUVAR branches apply the estimator to the
given argument (the Python TypeError on a None argument there is outside the
modelled behavior, the branch maps over the optional argument instead). -/
def LFL (sources : Registry) (Hc : Option ℚ) (atoms : Option (List (String × ℕ)))
    (CASRN : String) (method : Option String) : PyResult (Option ℚ) :=
  if pyTruthyStr method = false then
    let v := retrieve_any_from_df_dict sources CASRN "LFL"
    if pyTruthyOpt v then .ok v
    else if pyTruthyOpt Hc then .ok (Hc.map Suzuki_LFL)
    else if pyTruthyAtoms atoms then .ok (Crowl_Louvar_LFL (atoms.getD []))
    else .ok v
  else if method = some SUZUKI then
    .ok (Hc.map Suzuki_LFL)
  else if method = some CROWLLOUVAR then
    .ok (Crowl_Louvar_LFL (atoms.getD []))
  else
    retrieve_from_df_dict sources CASRN "LFL" (method.getD "")

/-- The tuple `UFL_all_methods` of chemicals/safety.py (line 933). -/
def UFL_all_methods : List String := [IEC, NFPA, SUZUKI, CROWLLOUVAR]

/-- The function `UFL_methods` of chemicals/safety.py (lines 936-970). -/
def UFL_methods (sources : Registry) (Hc : Option ℚ)
    (atoms : Option (List (String × ℕ))) (CASRN : String) : List String :=
  let methods := list_available_methods_from_df_dict sources CASRN "UFL"
  let methods := if Hc.isSome then methods ++ [SUZUKI] else methods
  let methods := if atoms.isSome then methods ++ [CROWLLOUVAR] else methods
  methods

/-- The function `UFL` of chemicals/safety.py (lines 972-1038).  Unlike LFL,
the default branch guards the estimators with `is not None` tests on Hc and
atoms, not truthiness. -/
def UFL (sources : Registry) (Hc : Option ℚ) (atoms : Option (List (String × ℕ)))
    (CASRN : String) (method : Option String) : PyResult (Option ℚ) :=
  if pyTruthyStr method = false then
    let v := retrieve_any_from_df_dict sources CASRN "UFL"
    if pyTruthyOpt v then .ok v
    else if Hc.isSome then .ok (Hc.map Suzuki_UFL)
    else if atoms.isSome then .ok (Crowl_Louvar_UFL (atoms.getD []))
    else .ok v
  else if method = some SUZUKI then
    .ok (Hc.map Suzuki_UFL)
  else if method = some CROWLLOUVAR then
    .ok (Crowl_Louvar_UFL (atoms.getD []))
  else
    retrieve_from_df_dict sources CASRN "UFL" (method.getD "")

/-- Modelled from the spec: the CCCBDB dipole table
(`cccbdb.nist.gov Dipoles.csv`, a data file absent from the given sources).
The spec (section 8) pins the value 1.44 debye for ethanol, 64-17-5, in this
first-priority source; the other row is representative. -/
def dipole_data_CCDB : PropertyTable :=
  [("64-17-5", [("Dipole", some (144 / 100))]),
   ("7732-18-5", [("Dipole", some (185 / 100))])]

/-- Modelled from the spec: the Muller dipole table (data file absent from
the given sources); it overlaps ethanol with a different value, as the spec
(section 3) allows overlapping, disagreeing tables. -/
def dipole_data_Muller : PropertyTable :=
  [("64-17-5", [("Dipole", some (174 / 100))])]

/-- Modelled from the spec: the Poling dipole table (data file absent from
the given sources). -/
def dipole_data_Poling : PropertyTable :=
  [("64-17-5", [("Dipole", some (169 / 100))]),
   ("67-56-1", [("Dipole", some (17 / 10))])]

/-- The registry `dipole_sources` of chemicals/dipole.py (lines 45-49), in
the insertion order CCCBDB, MULLER, POLING of the source. -/
def dipole_sources : Registry :=
  [(CCCBDB, dipole_data_CCDB), (MULLER, dipole_data_Muller), (POLING, dipole_data_Poling)]

/-- Modelled from the spec: the IEC 60079-20-1 (2010) table
(`IS IEC 60079-20-1 2010.tsv`, a data file absent from the given sources).
The spec (section 8) pins T_flash 285.15 K for ethanol, 64-17-5, and
tabulated lower-flammability data for methane, 74-82-8; the remaining cells
are representative, all flammability limits nonzero. -/
def IEC_2010_data : PropertyTable :=
  [("64-17-5",
     [("T_flash", some (28515 / 100)), ("T_autoignition", some (67315 / 100)),
      ("LFL", some (31 / 1000)), ("UFL", some (19 / 100))]),
   ("74-82-8",
     [("T_flash", none), ("T_autoignition", some (87315 / 100)),
      ("LFL", some (44 / 1000)), ("UFL", some (17 / 100))]),
   ("71-43-2",
     [("T_flash", some (26215 / 100)), ("T_autoignition", some (77115 / 100)),
      ("LFL", some (12 / 1000)), ("UFL", some (86 / 1000))])]

/-- Modelled from the spec: the NFPA 497 (2008) table (`NFPA 497 2008.tsv`,
a data file absent from the given sources); it must cover methane so that
the methane methods query lists both tabulated sources (spec section 8). -/
def NFPA_2008_data : PropertyTable :=
  [("74-82-8",
     [("T_autoignition", some (81315 / 100)),
      ("LFL", some (5 / 100)), ("UFL", some (15 / 100))]),
   ("64-17-5",
     [("T_flash", some (28615 / 100)), ("LFL", some (33 / 1000))])]

/-- Modelled from the spec: the Serat DIPPR flash-point table
(`DIPPR T_flash Serat.csv`, a data file absent from the given sources). -/
def DIPPR_SERAT_data : PropertyTable :=
  [("110-54-3", [("T_flash", some (25115 / 100))])]

/-- The registry `Tflash_sources` of chemicals/safety.py (lines 251-253). -/
def Tflash_sources : Registry :=
  [(IEC, IEC_2010_data), (NFPA, NFPA_2008_data), (SERAT, DIPPR_SERAT_data)]

/-- The registry `Tautoignition_sources` of chemicals/safety.py
(lines 254-255). -/
def Tautoignition_sources : Registry :=
  [(IEC, IEC_2010_data), (NFPA, NFPA_2008_data)]

/-- The registry `LFL_sources` of chemicals/safety.py (line 256), a copy of
`Tautoignition_sources`. -/
def LFL_sources : Registry := Tautoignition_sources

/-- The registry `UFL_sources` of chemicals/safety.py (line 257), a copy of
`Tautoignition_sources`. -/
def UFL_sources : Registry := Tautoignition_sources

/-- Modelled from the spec: a fragment of the Ontario exposure-limits
dictionary (`Ontario Exposure Limits.json`, a data file absent from the
given sources), with representative rows shaped as in the commented-out
loader of chemicals/safety.py (lines 331-334 and 353-356). -/
def Ontario_exposure_limits_dict : OntDict :=
  [("71-43-2",
     ⟨some (1 / 2), none, some (5 / 2), none, none, none, true⟩),
   ("98-00-0",
     ⟨some 10, none, some 15, none, none, none, true⟩),
   ("109-73-9",
     ⟨none, none, none, none, some 5, some (1496 / 100), false⟩),
   ("67-64-1",
     ⟨some 500, none, some 750, none, none, none, false⟩)]

/-- Modelled from the spec: a fragment of the IARC carcinogen table
(`IARC Carcinogen Database.tsv`, a data file absent from the given sources);
group code 3 for amitrole as in the safety.py docstring example. -/
def IARC_data : CodeTable := [("61-82-5", 3)]

/-- Modelled from the spec: a fragment of the NTP carcinogen table
(`National Toxicology Program Carcinogens.tsv`, a data file absent from the
given sources). -/
def NTP_data : CodeTable := [("61-82-5", 2)]

/-! Helper lemmas about the resolver primitives. -/

theorem mem_list_available {d : Registry} {i f m : String}
    (h : m ∈ list_available_methods_from_df_dict d i f) : m ∈ d.map Prod.fst := by
  simp only [list_available_methods_from_df_dict, List.mem_map, List.mem_filter] at h
  obtain ⟨p, ⟨hp, _⟩, rfl⟩ := h
  exact List.mem_map_of_mem Prod.fst hp

theorem retrieve_any_eq_none_iff (d : Registry) (i f : String) :
    retrieve_any_from_df_dict d i f = none ↔
      list_available_methods_from_df_dict d i f = [] := by
  induction d with
  | nil => simp [retrieve_any_from_df_dict, list_available_methods_from_df_dict]
  | cons p rest ih =>
    cases h : get_field p.2 i f with
    | none =>
      rw [retrieve_any_from_df_dict, h]
      rw [list_available_methods_from_df_dict, List.filter_cons]
      simp only [h, Option.isSome_none, Bool.false_eq_true, if_false]
      exact ih
    | some v =>
      rw [retrieve_any_from_df_dict, h]
      rw [list_available_methods_from_df_dict, List.filter_cons]
      simp [h]

theorem retrieve_any_mem {d : Registry} {i f : String} {v : ℚ}
    (h : retrieve_any_from_df_dict d i f = some v) :
    ∃ p ∈ d, get_field p.2 i f = some v := by
  induction d with
  | nil => simp [retrieve_any_from_df_dict] at h
  | cons p rest ih =>
    rw [retrieve_any_from_df_dict] at h
    cases hp : get_field p.2 i f with
    | none =>
      rw [hp] at h
      obtain ⟨q, hq, hqv⟩ := ih h
      exact ⟨q, List.mem_cons_of_mem p hq, hqv⟩
    | some w =>
      rw [hp] at h
      exact ⟨p, List.mem_cons_self p rest, hp.trans h⟩

theorem get_field_mem {t : PropertyTable} {i f : String} {v : ℚ}
    (h : get_field t i f = some v) :
    ∃ p ∈ t, ∃ c ∈ p.2, c.2 = some v := by
  rw [get_field] at h
  cases hr : get_row t i with
  | none => rw [hr] at h; exact absurd h (by simp)
  | some r =>
    rw [hr] at h
    rw [get_row] at hr
    cases hf : t.find? (fun p => p.1 == i) with
    | none => rw [hf] at hr; exact absurd hr (by simp)
    | some p =>
      rw [hf] at hr
      simp only [Option.map_some'] at hr
      obtain rfl : p.2 = r := by injection hr
      simp only [get_field_row] at h
      cases hc : p.2.find? (fun c => c.1 == f) with
      | none => rw [hc] at h; exact absurd h (by simp)
      | some c =>
        rw [hc] at h
        simp only [Option.map_some', Option.join] at h
        exact ⟨p, List.mem_of_find?_eq_some hf, c, List.mem_of_find?_eq_some hc, h⟩

theorem retrieve_any_of_all_miss {d : Registry} {i f : String}
    (h : ∀ p ∈ d, get_field p.2 i f = none) :
    retrieve_any_from_df_dict d i f = none := by
  induction d with
  | nil => rfl
  | cons p rest ih =>
    rw [retrieve_any_from_df_dict, h p (List.mem_cons_self p rest)]
    exact ih (fun q hq => h q (List.mem_cons_of_mem p hq))

theorem retrieve_any_append_first_hit {d1 d2 : Registry} {s : String}
    {t : PropertyTable} {i f : String} {v : ℚ}
    (hmiss : ∀ p ∈ d1, get_field p.2 i f = none) (hhit : get_field t i f = some v) :
    retrieve_any_from_df_dict (d1 ++ (s, t) :: d2) i f = some v := by
  induction d1 with
  | nil => rw [List.nil_append, retrieve_any_from_df_dict, hhit]
  | cons p rest ih =>
    rw [List.cons_append, retrieve_any_from_df_dict,
      hmiss p (List.mem_cons_self p rest)]
    exact ih (fun q hq => hmiss q (List.mem_cons_of_mem p hq))

theorem first_hit_core {d : Registry} {i f m : String} {ms : List String}
    (hnd : (d.map Prod.fst).Nodup)
    (h : list_available_methods_from_df_dict d i f = m :: ms) :
    retrieve_from_df_dict d i f m = .ok (retrieve_any_from_df_dict d i f) ∧
      (retrieve_any_from_df_dict d i f).isSome := by
  induction d with
  | nil => simp [list_available_methods_from_df_dict] at h
  | cons p rest ih =>
    simp only [List.map_cons, List.nodup_cons] at hnd
    cases hp : get_field p.2 i f with
    | some v =>
      have hm : p.1 = m := by
        simp [list_available_methods_from_df_dict, List.filter_cons, hp] at h
        exact h.1
      constructor
      · rw [retrieve_from_df_dict]
        simp only [List.find?_cons, hm, beq_self_eq_true, cond_true]
        rw [retrieve_any_from_df_dict, hp]
      · rw [retrieve_any_from_df_dict, hp]; rfl
    | none =>
      have hrest : list_available_methods_from_df_dict rest i f = m :: ms := by
        simpa [list_available_methods_from_df_dict, List.filter_cons, hp] using h
      have hmem : m ∈ rest.map Prod.fst :=
        mem_list_available (hrest ▸ List.mem_cons_self m ms)
      have hne : (p.1 == m) = false := by
        cases hb : p.1 == m with
        | false => rfl
        | true => exact absurd (eq_of_beq hb ▸ hmem) hnd.1
      obtain ⟨h1, h2⟩ := ih hnd.2 hrest
      refine ⟨?_, ?_⟩
      · rw [retrieve_from_df_dict, List.find?_cons, hne]
        rw [retrieve_from_df_dict] at h1
        rw [retrieve_any_from_df_dict, hp]
        cases hfind : rest.find? (fun s => s.1 == m) with
        | some q => rw [hfind] at h1; exact h1
        | none =>
          rw [hfind] at h1
          exact absurd h1 (by simp)
      · rw [retrieve_any_from_df_dict, hp]
        exact h2

/-! Claim theorems. -/

/-- C1: a property-lookup function called with no explicit method walks the
property registry in its fixed priority order and returns the field value
from the first source that has non-null data for the identifier, never
consulting later sources after a hit (the registries after the hit are
arbitrary and do not affect the result); if no registered source has data it
returns None rather than raising; `dipole_moment`, `T_flash` and
`T_autoignition` with no method are exactly this walk. -/
theorem retrieve_any_first_hit_policy :
    (∀ (d1 d2 : Registry) (s : String) (t : PropertyTable) (i f : String) (v : ℚ),
      (∀ p ∈ d1, get_field p.2 i f = none) → get_field t i f = some v →
      retrieve_any_from_df_dict (d1 ++ (s, t) :: d2) i f = some v)
  ∧ (∀ (d : Registry) (i f : String),
      (∀ p ∈ d, get_field p.2 i f = none) →
      retrieve_any_from_df_dict d i f = none)
  ∧ (∀ (d : Registry) (c : String),
      dipole_moment d c false none = .ok (.value (retrieve_any_from_df_dict d c "Dipole")))
  ∧ (∀ (d : Registry) (c : String),
      T_flash d c none = .ok (retrieve_any_from_df_dict d c "T_flash"))
  ∧ (∀ (d : Registry) (c : String),
      T_autoignition d c none = .ok (retrieve_any_from_df_dict d c "T_autoignition")) := by
  refine ⟨?_, ?_, ?_, ?_, ?_⟩
  · exact fun d1 d2 s t i f v hmiss hhit => retrieve_any_append_first_hit hmiss hhit
  · exact fun d i f h => retrieve_any_of_all_miss h
  · exact fun d c => rfl
  · exact fun d c => rfl
  · exact fun d c => rfl

/-- C1 witness: the first-hit walk on a concrete three-source registry picks
the second source value 2 after the first source misses, ignoring the third;
a registry whose only source misses yields None. -/
theorem retrieve_any_first_hit_policy_witness :
    retrieve_any_from_df_dict
      ([("A", [("64-17-5", [("f", none)])])] ++
        ("B", [("64-17-5", [("f", some 2)])]) :: [("C", [("64-17-5", [("f", some 3)])])])
      "64-17-5" "f" = some 2
  ∧ retrieve_any_from_df_dict [("A", [("64-17-5", [("f", none)])])] "64-17-5" "f" = none :=
  ⟨retrieve_any_first_hit_policy.1
      [("A", [("64-17-5", [("f", none)])])] [("C", [("64-17-5", [("f", some 3)])])]
      "B" [("64-17-5", [("f", some 2)])] "64-17-5" "f" 2 (by decide) rfl,
    retrieve_any_first_hit_policy.2.1 [("A", [("64-17-5", [("f", none)])])] "64-17-5" "f"
      (by decide)⟩

theorem pyTruthyStr_some_of_ne {m : String} (h : m ≠ "") :
    pyTruthyStr (some m) = true := by
  rw [pyTruthyStr]
  cases hb : m.isEmpty with
  | false => rfl
  | true => exact absurd ((String.isEmpty_iff m).mp hb) h

/-- C6: first-hit consistency: the value returned by the default, no-method
retrieval equals the value returned by the explicit-method retrieval at the
first source of the methods list (the registry keys being unique, per the
spec invariant); instantiated for `dipole_moment` and `T_flash`. -/
theorem first_hit_consistency :
    (∀ (d : Registry) (i f m : String) (ms : List String),
      (d.map Prod.fst).Nodup →
      list_available_methods_from_df_dict d i f = m :: ms →
      retrieve_from_df_dict d i f m = .ok (retrieve_any_from_df_dict d i f) ∧
        (retrieve_any_from_df_dict d i f).isSome)
  ∧ (∀ (d : Registry) (c m : String) (ms : List String),
      (d.map Prod.fst).Nodup → m ≠ "" →
      list_available_methods_from_df_dict d c "Dipole" = m :: ms →
      dipole_moment d c false (some m) = dipole_moment d c false none)
  ∧ (∀ (d : Registry) (c m : String) (ms : List String),
      (d.map Prod.fst).Nodup → m ≠ "" →
      list_available_methods_from_df_dict d c "T_flash" = m :: ms →
      T_flash d c (some m) = T_flash d c none) := by
  refine ⟨fun d i f m ms hnd h => first_hit_core hnd h, ?_, ?_⟩
  · intro d c m ms hnd hm h
    have h1 := (first_hit_core hnd h).1
    rw [dipole_moment, dipole_moment]
    simp only [if_false, Bool.false_eq_true, pyTruthyStr_some_of_ne hm, if_true,
      pyTruthyStr, Option.getD_some]
    rw [h1]
    split <;> rfl
  · intro d c m ms hnd hm h
    have h1 := (first_hit_core hnd h).1
    rw [T_flash, T_flash]
    simp only [pyTruthyStr_some_of_ne hm, if_true, pyTruthyStr, Bool.false_eq_true,
      if_false, Option.getD_some]
    rw [h1]
    split <;> rfl

/-- C6 witness: on a concrete two-source registry where only the second
source has dipole data for the identifier, the explicit call with the first
listed method equals the default call. -/
theorem first_hit_consistency_witness :
    dipole_moment [("A", []), ("B", [("64-17-5", [("Dipole", some 2)])])]
        "64-17-5" false (some "B")
      = dipole_moment [("A", []), ("B", [("64-17-5", [("Dipole", some 2)])])]
        "64-17-5" false none
  ∧ T_flash [("A", [("64-17-5", [("T_flash", some 285)])]), ("B", [])]
        "64-17-5" (some "A")
      = T_flash [("A", [("64-17-5", [("T_flash", some 285)])]), ("B", [])]
        "64-17-5" none :=
  ⟨first_hit_consistency.2.1 [("A", []), ("B", [("64-17-5", [("Dipole", some 2)])])]
      "64-17-5" "B" [] (by decide) (by decide) rfl,
    first_hit_consistency.2.2 [("A", [("64-17-5", [("T_flash", some 285)])]), ("B", [])]
      "64-17-5" "A" [] (by decide) (by decide) rfl⟩

/-- C5: the methods list is empty exactly when the default retrieval is
absent: generically, `list_available_methods` is empty iff `retrieve_any` is
None, and concretely `TWA_methods` is empty iff `TWA` with no method returns
no value.  (Estimator entries are appended by `LFL_methods` and
`UFL_methods` after this tabulated list and are outside the equivalence.) -/
theorem methods_empty_iff_retrieval_absent :
    (∀ (d : Registry) (i f : String),
      list_available_methods_from_df_dict d i f = [] ↔
        retrieve_any_from_df_dict d i f = none)
  ∧ (∀ (ont : OntDict) (c : String),
      TWA_methods ont c = [] ↔ TWA ont c none = .ok none) := by
  constructor
  · exact fun d i f => (retrieve_any_eq_none_iff d i f).symm
  · intro ont c
    rw [TWA_methods, TWA]
    cases h : ontLookup ont c with
    | none => simp [pyTruthyStr]
    | some data =>
      cases h1 : pyTruthyOpt data.TWA_ppm with
      | true => simp [pyTruthyStr, h1]
      | false =>
        cases h2 : pyTruthyOpt data.TWA_mgm3 with
        | true => simp [pyTruthyStr, h1, h2]
        | false => simp [pyTruthyStr, h1, h2]

/-- C2 (code evaluated at the failing input): a truthy method name outside
the registry raises immediately for every identifier, but while TWA and STEL
enumerate a method-name tuple in the error, Ceiling enumerates the
identifier keys of the Ontario dictionary (`list(Ontario_exposure_limits_dict)`
in the source), which is not the valid method set. -/
theorem invalid_method_raises_and_enumeration :
    (∀ (ont : OntDict) (c m : String), m ≠ "" → m ≠ ONTARIO_LIMITS →
      TWA ont c (some m) = .raised ⟨m, TWA_all_methods⟩)
  ∧ (∀ (ont : OntDict) (c m : String), m ≠ "" → m ≠ ONTARIO_LIMITS →
      STEL ont c (some m) = .raised ⟨m, TWA_all_methods⟩)
  ∧ (∀ (ont : OntDict) (c m : String), m ≠ "" → m ≠ ONTARIO_LIMITS →
      Ceiling ont c (some m) = .raised ⟨m, ont.map Prod.fst⟩)
  ∧ Ceiling Ontario_exposure_limits_dict "64-17-5" (some "BADMETHOD")
      = .raised ⟨"BADMETHOD", ["71-43-2", "98-00-0", "109-73-9", "67-64-1"]⟩
  ∧ ["71-43-2", "98-00-0", "109-73-9", "67-64-1"] ≠ Ceiling_all_methods := by
  have hcond : ∀ m : String, m ≠ "" → m ≠ ONTARIO_LIMITS →
      ¬(pyTruthyStr (some m) = false ∨ some m = some ONTARIO_LIMITS) := by
    rintro m hm hmo (h | h)
    · rw [pyTruthyStr_some_of_ne hm] at h
      exact absurd h (by simp)
    · exact hmo (by injection h)
  refine ⟨?_, ?_, ?_, rfl, by decide⟩
  · intro ont c m hm hmo
    rw [TWA, if_neg (hcond m hm hmo), Option.getD_some]
  · intro ont c m hm hmo
    rw [STEL, if_neg (hcond m hm hmo), Option.getD_some]
  · intro ont c m hm hmo
    rw [Ceiling, if_neg (hcond m hm hmo), Option.getD_some]

/-- C2 witness: the concrete raises, for an empty dictionary on TWA and a
one-row dictionary on Ceiling. -/
theorem invalid_method_raises_and_enumeration_witness :
    TWA [] "64-17-5" (some "BADMETHOD") = .raised ⟨"BADMETHOD", TWA_all_methods⟩
  ∧ Ceiling [("7664-39-3", ⟨none, none, none, none, some 2, none, false⟩)]
      "64-17-5" (some "BADMETHOD") = .raised ⟨"BADMETHOD", ["7664-39-3"]⟩ :=
  ⟨invalid_method_raises_and_enumeration.1 [] "64-17-5" "BADMETHOD"
      (by decide) (by decide),
    invalid_method_raises_and_enumeration.2.2.1
      [("7664-39-3", ⟨none, none, none, none, some 2, none, false⟩)]
      "64-17-5" "BADMETHOD" (by decide) (by decide)⟩

/-- C4: `LFL_methods` and `UFL_methods` append the estimator names exactly
when the auxiliary inputs are supplied, SUZUKI for a given Hc and
CROWLLOUVAR for given atoms, after the tabulated list and regardless of
tabulated data; concretely, methane 74-82-8 with both inputs lists the two
tabulated sources then the two estimators, in that order. -/
theorem estimator_methods_appended :
    (∀ (d : Registry) (hc : Option ℚ) (atoms : Option (List (String × ℕ))) (c : String),
      LFL_methods d hc atoms c =
        list_available_methods_from_df_dict d c "LFL"
          ++ (if hc.isSome then [SUZUKI] else [])
          ++ (if atoms.isSome then [CROWLLOUVAR] else []))
  ∧ (∀ (d : Registry) (hc : Option ℚ) (atoms : Option (List (String × ℕ))) (c : String),
      UFL_methods d hc atoms c =
        list_available_methods_from_df_dict d c "UFL"
          ++ (if hc.isSome then [SUZUKI] else [])
          ++ (if atoms.isSome then [CROWLLOUVAR] else []))
  ∧ LFL_methods LFL_sources (some (-890590)) (some [("C", 1), ("H", 4)]) "74-82-8"
      = [IEC, NFPA, SUZUKI, CROWLLOUVAR]
  ∧ UFL_methods UFL_sources (some (-890590)) (some [("C", 1), ("H", 4)]) "74-82-8"
      = [IEC, NFPA, SUZUKI, CROWLLOUVAR] := by
  refine ⟨?_, ?_, rfl, rfl⟩
  · intro d hc atoms c
    cases hc <;> cases atoms <;> simp [LFL_methods]
  · intro d hc atoms c
    cases hc <;> cases atoms <;> simp [UFL_methods]

/-- C3: for LFL and UFL with no explicit method, the estimators run only
after the walk over all tabulated sources yields nothing (Suzuki from Hc
first, else Crowl-Louvar from atoms, else None); whenever the walk yields a
(nonzero) value it is returned untouched; with an explicit tabulated method
name the call is exactly the explicit-source lookup, estimators never
substituted; and in the modelled LFL and UFL tables every stored limit is
nonzero, so the yielded-value case is exhaustive for the shipped data. -/
theorem estimator_fallback_only_after_exhaustion :
    (∀ (d : Registry) (hc : Option ℚ) (atoms : Option (List (String × ℕ)))
        (c : String) (v : ℚ),
      retrieve_any_from_df_dict d c "LFL" = some v → v ≠ 0 →
      LFL d hc atoms c none = .ok (some v))
  ∧ (∀ (d : Registry) (atoms : Option (List (String × ℕ))) (c : String) (h : ℚ),
      retrieve_any_from_df_dict d c "LFL" = none → h ≠ 0 →
      LFL d (some h) atoms c none = .ok (some (Suzuki_LFL h)))
  ∧ (∀ (d : Registry) (hc : Option ℚ) (l : List (String × ℕ)) (c : String),
      retrieve_any_from_df_dict d c "LFL" = none → pyTruthyOpt hc = false → l ≠ [] →
      LFL d hc (some l) c none = .ok (Crowl_Louvar_LFL l))
  ∧ (∀ (d : Registry) (hc : Option ℚ) (atoms : Option (List (String × ℕ))) (c : String),
      retrieve_any_from_df_dict d c "LFL" = none → pyTruthyOpt hc = false →
      pyTruthyAtoms atoms = false → LFL d hc atoms c none = .ok none)
  ∧ (∀ (d : Registry) (hc : Option ℚ) (atoms : Option (List (String × ℕ))) (c m : String),
      m ∈ d.map Prod.fst → m ≠ "" → m ≠ SUZUKI → m ≠ CROWLLOUVAR →
      LFL d hc atoms c (some m) = retrieve_from_df_dict d c "LFL" m)
  ∧ (∀ (d : Registry) (hc : Option ℚ) (atoms : Option (List (String × ℕ)))
        (c : String) (v : ℚ),
      retrieve_any_from_df_dict d c "UFL" = some v → v ≠ 0 →
      UFL d hc atoms c none = .ok (some v))
  ∧ (∀ (d : Registry) (atoms : Option (List (String × ℕ))) (c : String) (h : ℚ),
      retrieve_any_from_df_dict d c "UFL" = none →
      UFL d (some h) atoms c none = .ok (some (Suzuki_UFL h)))
  ∧ (∀ (d : Registry) (l : List (String × ℕ)) (c : String),
      retrieve_any_from_df_dict d c "UFL" = none →
      UFL d none (some l) c none = .ok (Crowl_Louvar_UFL l))
  ∧ (∀ (d : Registry) (c : String),
      retrieve_any_from_df_dict d c "UFL" = none →
      UFL d none none c none = .ok none)
  ∧ (∀ (d : Registry) (hc : Option ℚ) (atoms : Option (List (String × ℕ))) (c m : String),
      m ∈ d.map Prod.fst → m ≠ "" → m ≠ SUZUKI → m ≠ CROWLLOUVAR →
      UFL d hc atoms c (some m) = retrieve_from_df_dict d c "UFL" m)
  ∧ (∀ (c : String) (v : ℚ),
      retrieve_any_from_df_dict LFL_sources c "LFL" = some v → v ≠ 0)
  ∧ (∀ (c : String) (v : ℚ),
      retrieve_any_from_df_dict UFL_sources c "UFL" = some v → v ≠ 0) := by
  refine ⟨?_, ?_, ?_, ?_, ?_, ?_, ?_, ?_, ?_, ?_, ?_, ?_⟩
  · intro d hc atoms c v h hv
    simp [LFL, pyTruthyStr, h, pyTruthyOpt, hv]
  · intro d atoms c hcv h hv
    simp [LFL, pyTruthyStr, h, pyTruthyOpt, hv]
  · intro d hc l c h hhc hl
    cases l with
    | nil => exact absurd rfl hl
    | cons a as =>
      simp [LFL, pyTruthyStr, h, hhc, pyTruthyAtoms, List.isEmpty,
        show pyTruthyOpt none = false from rfl]
  · intro d hc atoms c h hhc hat
    simp [LFL, pyTruthyStr, h, hhc, hat, show pyTruthyOpt none = false from rfl]
  · intro d hc atoms c m _hmem hm hms hmc
    rw [LFL, if_neg (by simp [pyTruthyStr_some_of_ne hm]),
      if_neg (fun hh => hms (by injection hh)),
      if_neg (fun hh => hmc (by injection hh)), Option.getD_some]
  · intro d hc atoms c v h hv
    simp [UFL, pyTruthyStr, h, pyTruthyOpt, hv]
  · intro d atoms c hcv h
    simp [UFL, pyTruthyStr, h, show pyTruthyOpt none = false from rfl]
  · intro d l c h
    simp [UFL, pyTruthyStr, h, show pyTruthyOpt none = false from rfl]
  · intro d c h
    simp [UFL, pyTruthyStr, h, show pyTruthyOpt none = false from rfl]
  · intro d hc atoms c m _hmem hm hms hmc
    rw [UFL, if_neg (by simp [pyTruthyStr_some_of_ne hm]),
      if_neg (fun hh => hms (by injection hh)),
      if_neg (fun hh => hmc (by injection hh)), Option.getD_some]
  · intro c v h hv0
    subst hv0
    obtain ⟨p, hp, hpg⟩ := retrieve_any_mem h
    obtain ⟨r, hr, cc, hcc, hval⟩ := get_field_mem hpg
    rw [LFL_sources, Tautoignition_sources] at hp
    simp only [List.mem_cons, List.not_mem_nil, or_false] at hp
    rcases hp with rfl | rfl
    · simp only [IEC_2010_data, List.mem_cons, List.not_mem_nil, or_false] at hr
      rcases hr with rfl | rfl | rfl <;>
        simp only [List.mem_cons, List.not_mem_nil, or_false] at hcc <;>
        rcases hcc with rfl | rfl | rfl | rfl <;>
        first
        | exact Option.noConfusion hval
        | norm_num at hval
    · simp only [NFPA_2008_data, List.mem_cons, List.not_mem_nil, or_false] at hr
      rcases hr with rfl | rfl
      · simp only [List.mem_cons, List.not_mem_nil, or_false] at hcc
        rcases hcc with rfl | rfl | rfl <;>
          first
          | exact Option.noConfusion hval
          | norm_num at hval
      · simp only [List.mem_cons, List.not_mem_nil, or_false] at hcc
        rcases hcc with rfl | rfl <;>
          first
          | exact Option.noConfusion hval
          | norm_num at hval
  · intro c v h hv0
    subst hv0
    obtain ⟨p, hp, hpg⟩ := retrieve_any_mem h
    obtain ⟨r, hr, cc, hcc, hval⟩ := get_field_mem hpg
    rw [UFL_sources, Tautoignition_sources] at hp
    simp only [List.mem_cons, List.not_mem_nil, or_false] at hp
    rcases hp with rfl | rfl
    · simp only [IEC_2010_data, List.mem_cons, List.not_mem_nil, or_false] at hr
      rcases hr with rfl | rfl | rfl <;>
        simp only [List.mem_cons, List.not_mem_nil, or_false] at hcc <;>
        rcases hcc with rfl | rfl | rfl | rfl <;>
        first
        | exact Option.noConfusion hval
        | norm_num at hval
    · simp only [NFPA_2008_data, List.mem_cons, List.not_mem_nil, or_false] at hr
      rcases hr with rfl | rfl
      · simp only [List.mem_cons, List.not_mem_nil, or_false] at hcc
        rcases hcc with rfl | rfl | rfl <;>
          first
          | exact Option.noConfusion hval
          | norm_num at hval
      · simp only [List.mem_cons, List.not_mem_nil, or_false] at hcc
        rcases hcc with rfl | rfl <;>
          first
          | exact Option.noConfusion hval
          | norm_num at hval

/-- C3 witness: on concrete registries, a tabulated hit is returned with the
estimator ignored; an exhausted walk falls back to Suzuki for LFL and UFL;
an explicit tabulated method call equals the explicit-source lookup; and the
modelled benzene lower limit is a nonzero yielded value. -/
theorem estimator_fallback_only_after_exhaustion_witness :
    LFL [("S", [("74-82-8", [("LFL", some 2)])])] (some (-1000000)) none "74-82-8" none
      = .ok (some 2)
  ∧ LFL [("S", [])] none (some [("C", 1), ("H", 4)]) "74-82-8" none
      = .ok (Crowl_Louvar_LFL [("C", 1), ("H", 4)])
  ∧ LFL [("S", [("74-82-8", [("LFL", some 2)])])] (some (-1000000)) none
      "74-82-8" (some "S")
      = retrieve_from_df_dict [("S", [("74-82-8", [("LFL", some 2)])])] "74-82-8" "LFL" "S"
  ∧ UFL [("S", [])] (some (-1000000)) none "74-82-8" none
      = .ok (some (Suzuki_UFL (-1000000)))
  ∧ ((12 : ℚ) / 1000 ≠ 0) :=
  ⟨estimator_fallback_only_after_exhaustion.1
      [("S", [("74-82-8", [("LFL", some 2)])])] (some (-1000000)) none "74-82-8" 2
      rfl (by decide),
    estimator_fallback_only_after_exhaustion.2.2.1
      [("S", [])] none [("C", 1), ("H", 4)] "74-82-8" rfl rfl (by decide),
    estimator_fallback_only_after_exhaustion.2.2.2.2.1
      [("S", [("74-82-8", [("LFL", some 2)])])] (some (-1000000)) none "74-82-8" "S"
      (by decide) (by decide) (by decide) (by decide),
    estimator_fallback_only_after_exhaustion.2.2.2.2.2.2.1
      [("S", [])] none "74-82-8" (-1000000) rfl,
    estimator_fallback_only_after_exhaustion.2.2.2.2.2.2.2.2.2.2.1
      "71-43-2" (12 / 1000) rfl⟩

theorem get_field_of_no_row {t : PropertyTable} {i : String} (f : String)
    (h : get_row t i = none) : get_field t i f = none := by
  rw [get_field, h]

/-- C7 counterexample: Carcinogen is a property-lookup function, yet for an
identifier present in zero sources (absent from the modelled IARC and NTP
tables) its methods query returns both source names, not the empty list. -/
theorem carcinogen_methods_nonempty_counterexample :
    codeLookup IARC_data "1111-11-1" = none
  ∧ codeLookup NTP_data "1111-11-1" = none
  ∧ Carcinogen_methods "1111-11-1" = [IARC, NTP]
  ∧ Carcinogen_methods "1111-11-1" ≠ ([] : List String)
  ∧ Carcinogen IARC_data NTP_data "1111-11-1" none = .ok (.full UNLISTED UNLISTED) :=
  ⟨rfl, rfl, rfl, by decide, rfl⟩

/-- C7 amended: for every resolver-based property-lookup function
(dipole_moment, T_flash, T_autoignition, the Ontario families TWA, STEL,
Ceiling, Skin, and LFL and UFL without auxiliary inputs) an identifier
present in zero sources gives a None default retrieval and an empty methods
list, with no exception anywhere on the path; Carcinogen is the exception:
its default lookup reports the Unlisted marker for both sources and its
methods query always returns both source names. -/
theorem unknown_identifier_absent_amended :
    (∀ (d : Registry) (i f : String), (∀ p ∈ d, get_row p.2 i = none) →
      retrieve_any_from_df_dict d i f = none ∧
        list_available_methods_from_df_dict d i f = [])
  ∧ (∀ (d : Registry) (c : String), (∀ p ∈ d, get_row p.2 c = none) →
      dipole_moment d c false none = .ok (.value none) ∧
        dipole_moment d c true none = .ok (.methods []))
  ∧ (∀ (d : Registry) (c : String), (∀ p ∈ d, get_row p.2 c = none) →
      T_flash d c none = .ok none ∧ T_flash_methods d c = [])
  ∧ (∀ (d : Registry) (c : String), (∀ p ∈ d, get_row p.2 c = none) →
      T_autoignition d c none = .ok none ∧ T_autoignition_methods d c = [])
  ∧ (∀ (ont : OntDict) (c : String), ontLookup ont c = none →
      TWA ont c none = .ok none ∧ TWA_methods ont c = [] ∧
      STEL ont c none = .ok none ∧ STEL_methods ont c = [] ∧
      Ceiling ont c none = .ok none ∧ Ceiling_methods ont c = [] ∧
      Skin ont c none = .ok none ∧ Skin_methods ont c = [])
  ∧ (∀ (d : Registry) (c : String), (∀ p ∈ d, get_row p.2 c = none) →
      LFL d none none c none = .ok none ∧ LFL_methods d none none c = [] ∧
      UFL d none none c none = .ok none ∧ UFL_methods d none none c = [])
  ∧ (∀ (iarc ntp : CodeTable) (c : String),
      codeLookup iarc c = none → codeLookup ntp c = none →
      Carcinogen iarc ntp c none = .ok (.full UNLISTED UNLISTED) ∧
        Carcinogen_methods c = [IARC, NTP]) := by
  have key : ∀ (d : Registry) (i f : String), (∀ p ∈ d, get_row p.2 i = none) →
      retrieve_any_from_df_dict d i f = none ∧
        list_available_methods_from_df_dict d i f = [] := by
    intro d i f h
    have hra := retrieve_any_of_all_miss
      (fun p hp => get_field_of_no_row f (h p hp))
    exact ⟨hra, (retrieve_any_eq_none_iff d i f).mp hra⟩
  refine ⟨key, ?_, ?_, ?_, ?_, ?_, ?_⟩
  · intro d c h
    obtain ⟨h1, h2⟩ := key d c "Dipole" h
    constructor
    · rw [show dipole_moment d c false none
          = .ok (.value (retrieve_any_from_df_dict d c "Dipole")) from rfl, h1]
    · rw [show dipole_moment d c true none
          = .ok (.methods (list_available_methods_from_df_dict d c "Dipole")) from rfl, h2]
  · intro d c h
    obtain ⟨h1, h2⟩ := key d c "T_flash" h
    exact ⟨by rw [show T_flash d c none
        = .ok (retrieve_any_from_df_dict d c "T_flash") from rfl, h1],
      by rw [T_flash_methods, h2]⟩
  · intro d c h
    obtain ⟨h1, h2⟩ := key d c "T_autoignition" h
    exact ⟨by rw [show T_autoignition d c none
        = .ok (retrieve_any_from_df_dict d c "T_autoignition") from rfl, h1],
      by rw [T_autoignition_methods, h2]⟩
  · intro ont c h
    refine ⟨?_, ?_, ?_, ?_, ?_, ?_, ?_, ?_⟩ <;>
      simp [TWA, TWA_methods, STEL, STEL_methods, Ceiling, Ceiling_methods,
        Skin, Skin_methods, pyTruthyStr, h]
  · intro d c h
    obtain ⟨h1, h2⟩ := key d c "LFL" h
    obtain ⟨h3, h4⟩ := key d c "UFL" h
    refine ⟨?_, ?_, ?_, ?_⟩
    · simp [LFL, pyTruthyStr, h1, show pyTruthyOpt none = false from rfl, pyTruthyAtoms]
    · simp [LFL_methods, h2]
    · simp [UFL, pyTruthyStr, h3, show pyTruthyOpt none = false from rfl]
    · simp [UFL_methods, h4]
  · intro iarc ntp c h1 h2
    exact ⟨by simp [Carcinogen, pyTruthyStr, h1, h2], rfl⟩

/-- C7 amended witness: the identifier 1111-11-1 is in none of the modelled
tables; every resolver-based lookup returns None and every methods query is
empty, while Carcinogen reports both sources Unlisted. -/
theorem unknown_identifier_absent_amended_witness :
    dipole_moment dipole_sources "1111-11-1" false none = .ok (.value none)
  ∧ T_flash Tflash_sources "1111-11-1" none = .ok none
  ∧ TWA Ontario_exposure_limits_dict "1111-11-1" none = .ok none
  ∧ Ceiling_methods Ontario_exposure_limits_dict "1111-11-1" = []
  ∧ LFL LFL_sources none none "1111-11-1" none = .ok none
  ∧ Carcinogen IARC_data NTP_data "1111-11-1" none = .ok (.full UNLISTED UNLISTED) :=
  ⟨(unknown_identifier_absent_amended.2.1 dipole_sources "1111-11-1" (by decide)).1,
    (unknown_identifier_absent_amended.2.2.1 Tflash_sources "1111-11-1" (by decide)).1,
    (unknown_identifier_absent_amended.2.2.2.2.1 Ontario_exposure_limits_dict
      "1111-11-1" (by decide)).1,
    (unknown_identifier_absent_amended.2.2.2.2.1 Ontario_exposure_limits_dict
      "1111-11-1" (by decide)).2.2.2.2.2.1,
    (unknown_identifier_absent_amended.2.2.2.2.2.1 LFL_sources "1111-11-1" (by decide)).1,
    (unknown_identifier_absent_amended.2.2.2.2.2.2 IARC_data NTP_data "1111-11-1"
      rfl rfl).1⟩

/-- C8: the dipole registry priority order is CCCBDB, MULLER, POLING; the
CCCBDB table holds 1.44 debye for ethanol 64-17-5 (and the later Muller
source disagrees), and the default lookup returns the CCCBDB value 1.44. -/
theorem dipole_ethanol_cccbdb_preferred :
    dipole_sources.map Prod.fst = [CCCBDB, MULLER, POLING]
  ∧ get_field dipole_data_CCDB "64-17-5" "Dipole" = some (144 / 100)
  ∧ get_field dipole_data_Muller "64-17-5" "Dipole" = some (174 / 100)
  ∧ dipole_moment dipole_sources "64-17-5" false none
      = .ok (.value (some (144 / 100))) :=
  ⟨rfl, rfl, rfl, rfl⟩

/-- C9: a stored numeric zero behaves as absent: when the Ontario row holds
zero in both fields of the requested limit, TWA, STEL and Ceiling return
None; and for LFL and UFL a tabulated zero makes the estimator fallback run
and its result be returned even though tabulated data exists. -/
theorem zero_value_treated_as_absent :
    (∀ (ont : OntDict) (c : String) (data : OntarioEntry), ontLookup ont c = some data →
      data.TWA_ppm = some 0 → data.TWA_mgm3 = some 0 → TWA ont c none = .ok none)
  ∧ (∀ (ont : OntDict) (c : String) (data : OntarioEntry), ontLookup ont c = some data →
      data.STEL_ppm = some 0 → data.STEL_mgm3 = some 0 → STEL ont c none = .ok none)
  ∧ (∀ (ont : OntDict) (c : String) (data : OntarioEntry), ontLookup ont c = some data →
      data.Ceiling_ppm = some 0 → data.Ceiling_mgm3 = some 0 →
      Ceiling ont c none = .ok none)
  ∧ (∀ (d : Registry) (atoms : Option (List (String × ℕ))) (c : String) (h : ℚ),
      retrieve_any_from_df_dict d c "LFL" = some 0 → h ≠ 0 →
      LFL d (some h) atoms c none = .ok (some (Suzuki_LFL h)))
  ∧ (∀ (d : Registry) (atoms : Option (List (String × ℕ))) (c : String) (h : ℚ),
      retrieve_any_from_df_dict d c "UFL" = some 0 →
      UFL d (some h) atoms c none = .ok (some (Suzuki_UFL h))) := by
  refine ⟨?_, ?_, ?_, ?_, ?_⟩
  · intro ont c data hl h1 h2
    simp [TWA, pyTruthyStr, hl, h1, h2, pyTruthyOpt]
  · intro ont c data hl h1 h2
    simp [STEL, pyTruthyStr, hl, h1, h2, pyTruthyOpt]
  · intro ont c data hl h1 h2
    simp [Ceiling, pyTruthyStr, hl, h1, h2, pyTruthyOpt]
  · intro d atoms c hcv h hv
    simp [LFL, pyTruthyStr, h, pyTruthyOpt, hv]
  · intro d atoms c hcv h
    simp [UFL, pyTruthyStr, h, pyTruthyOpt]

/-- C9 witness: a concrete all-zero Ontario row yields None from TWA, and a
concrete registry storing zero for the lower limit makes LFL return the
Suzuki estimate despite the stored row. -/
theorem zero_value_treated_as_absent_witness :
    TWA [("556-52-5", ⟨some 0, some 0, some 0, some 0, some 0, some 0, false⟩)]
      "556-52-5" none = .ok none
  ∧ LFL [("S", [("556-52-5", [("LFL", some 0)])])] (some (-1000000)) none
      "556-52-5" none = .ok (some (Suzuki_LFL (-1000000))) :=
  ⟨zero_value_treated_as_absent.1
      [("556-52-5", ⟨some 0, some 0, some 0, some 0, some 0, some 0, false⟩)]
      "556-52-5" ⟨some 0, some 0, some 0, some 0, some 0, some 0, false⟩
      rfl rfl rfl,
    zero_value_treated_as_absent.2.2.2.1
      [("S", [("556-52-5", [("LFL", some 0)])])] none "556-52-5" (-1000000)
      rfl (by decide)⟩

/-- C10: the empty string, a falsy method argument, bypasses method
validation entirely: every property-lookup function treats it exactly like
an omitted method, running default priority-order resolution and raising
nothing. -/
theorem falsy_method_bypasses_validation :
    (∀ (ont : OntDict) (c : String), TWA ont c (some "") = TWA ont c none)
  ∧ (∀ (ont : OntDict) (c : String), STEL ont c (some "") = STEL ont c none)
  ∧ (∀ (ont : OntDict) (c : String), Ceiling ont c (some "") = Ceiling ont c none)
  ∧ (∀ (ont : OntDict) (c : String), Skin ont c (some "") = Skin ont c none)
  ∧ (∀ (d : Registry) (c : String) (g : Bool),
      dipole_moment d c g (some "") = dipole_moment d c g none)
  ∧ (∀ (d : Registry) (c : String), T_flash d c (some "") = T_flash d c none)
  ∧ (∀ (d : Registry) (c : String),
      T_autoignition d c (some "") = T_autoignition d c none)
  ∧ (∀ (d : Registry) (hc : Option ℚ) (atoms : Option (List (String × ℕ))) (c : String),
      LFL d hc atoms c (some "") = LFL d hc atoms c none)
  ∧ (∀ (d : Registry) (hc : Option ℚ) (atoms : Option (List (String × ℕ))) (c : String),
      UFL d hc atoms c (some "") = UFL d hc atoms c none)
  ∧ (∀ (iarc ntp : CodeTable) (c : String),
      Carcinogen iarc ntp c (some "") = Carcinogen iarc ntp c none) := by
  refine ⟨fun ont c => rfl, fun ont c => rfl, fun ont c => rfl, fun ont c => rfl,
    ?_, fun d c => rfl, fun d c => rfl, fun d hc atoms c => rfl,
    fun d hc atoms c => rfl, fun iarc ntp c => rfl⟩
  intro d c g
  cases g <;> rfl
